import Mathlib

/-!
Shallow embedding of the TNS (Token Name Service) registry program
(`programs/tns/src`) and verification of its specification claims.

Modelling conventions:
* Rust `u64`/`u128` values are `Nat`; wherever the source can overflow
  (multiplications, casts `as u64`/`as u128`), the embedding applies the
  corresponding `% 2^64` / `% 2^128` truncation explicitly.
* Rust `i64` timestamps are `Int`; `i64` additions/subtractions that can wrap
  are passed through `wrap64`.  Rust `i64` division (`/`, truncation toward
  zero) is `Int.tdiv`.
* `Pubkey` is `Nat`.
* Fallible code returns `Except TnsError` when every failure is a returned
  error; code that can hit a Rust runtime panic (division by zero) returns
  `Outcome`, whose `trap` constructor marks the panic.
* On-chain account reads (Pyth feed bytes, Metaplex metadata accounts,
  Token-2022 metadata extensions) are modelled as structures carrying the
  parsed fields together with booleans for the format/address checks the
  source performs on them.
-/

namespace Tns

/-! ## Constants (`constants.rs`) -/

def MAX_SYMBOL_LENGTH : Nat := 10

def MAX_REGISTRATION_YEARS : Nat := 10

def SECONDS_PER_YEAR : Int := 31557600

def GRACE_PERIOD_SECONDS : Int := 90 * 24 * 60 * 60

def CANCEL_PERIOD_SECONDS : Int := 365 * 24 * 60 * 60

def BASE_PRICE_USD_MICRO : Nat := 10000000

def ANNUAL_INCREASE_BPS : Nat := 700

def KEEPER_REWARD_LAMPORTS : Nat := 50000000

def UPDATE_FEE_BPS : Nat := 5000

def MULTI_YEAR_DISCOUNT_BPS : List Nat :=
  [0, 500, 800, 1100, 1400, 1600, 1800, 2000, 2200, 2500]

def MAX_PRICE_STALENESS_SECONDS : Int := 60

def TNS_DISCOUNT_BPS : Nat := 2500

def MAX_PLATFORM_FEE_BPS : Nat := 1000

/-- Modulus of Rust `u64`. -/
def U64_MOD : Nat := 2 ^ 64

/-- Modulus of Rust `u128`. -/
def U128_MOD : Nat := 2 ^ 128

/-- Two's-complement wrap of an `Int` into the `i64` range, the result of a
Rust `i64` addition or subtraction in release mode. -/
def wrap64 (x : Int) : Int := (x + 2 ^ 63) % 2 ^ 64 - 2 ^ 63

/-- Wrapping `u64` subtraction (`a - b` in release mode), for `a b < 2^64`. -/
def sub64 (a b : Nat) : Nat := (U64_MOD + a - b) % U64_MOD

/-! ## Errors (`errors.rs`) -/

inductive TnsError where
  | InvalidSymbolLength
  | Unauthorized
  | Paused
  | SameMint
  | SameOwner
  | InvalidYears
  | SymbolExpired
  | NotYetExpired
  | ExceedsMaxYears
  | InsufficientPayment
  | StalePriceFeed
  | InvalidPriceFeed
  | PriceFeedMismatch
  | InvalidMint
  | SymbolReserved
  | AdminOnlyRegistration
  | InvalidPhase
  | SlippageExceeded
  | NotYetCancelable
  | SymbolNotExpired
  | PlatformFeeExceedsMax
  | InvalidPoolReserve
  | EmptyPoolReserves
  | MathOverflow
  | InvalidMetadata
  | MetadataSymbolMismatch
  | MetadataMustBeImmutable
  | NotTokenAuthority
  | AlreadyOwner
  | NoDriftDetected
  deriving DecidableEq, Repr

/-- Result of running a piece of Rust code that either returns `Ok`,
returns a program error, or hits a runtime panic (`trap`). -/
inductive Outcome (α : Type) where
  | ok (a : α)
  | err (e : TnsError)
  | trap
  deriving DecidableEq, Repr

/-! ## State (`state/config.rs`, `state/token.rs`) -/

structure Config where
  admin : Nat
  fee_collector : Nat
  base_price_usd_micro : Nat
  annual_increase_bps : Nat
  update_fee_bps : Nat
  sol_usd_pyth_feed : Nat
  tns_usd_pyth_feed : Option Nat
  keeper_reward_lamports : Nat
  launch_timestamp : Int
  paused : Bool
  phase : Nat
  deriving DecidableEq, Repr

structure Token where
  symbol : String
  mint : Nat
  owner : Nat
  registered_at : Int
  expires_at : Int
  deriving DecidableEq, Repr

/-- `Token::is_expired`: past expiration plus grace period. -/
def Token.is_expired (tok : Token) (current_time : Int) : Bool :=
  current_time > tok.expires_at + GRACE_PERIOD_SECONDS

/-- `Token::is_in_grace_period`. -/
def Token.is_in_grace_period (tok : Token) (current_time : Int) : Bool :=
  current_time > tok.expires_at && current_time ≤ tok.expires_at + GRACE_PERIOD_SECONDS

/-- `Token::is_active`. -/
def Token.is_active (tok : Token) (current_time : Int) : Bool :=
  current_time ≤ tok.expires_at

/-- `Token::is_cancelable`: one year past the grace period. -/
def Token.is_cancelable (tok : Token) (current_time : Int) : Bool :=
  current_time > tok.expires_at + GRACE_PERIOD_SECONDS + CANCEL_PERIOD_SECONDS

/-! ## Price growth (`Config::get_current_yearly_price_usd`) -/

/-- One iteration of the compounding loop, in `u128` arithmetic:
`price = price * (10000 + annual_increase_bps) / 10000`. -/
def price_step (bps p : Nat) : Nat := p * (10000 + bps) % U128_MOD / 10000

/-- `k` iterations of the compounding loop starting from `base`. -/
def compound_price (bps base : Nat) : Nat → Nat
  | 0 => base
  | k + 1 => price_step bps (compound_price bps base k)

/-- `Config::get_current_yearly_price_usd`.  `years_since_launch` uses Rust
`i64` subtraction (wrapping) and division (truncation toward zero); the loop
count is capped at 50; the final `as u64` cast truncates. -/
def Config.get_current_yearly_price_usd (cfg : Config) (current_time : Int) : Nat :=
  let years_since_launch := (wrap64 (current_time - cfg.launch_timestamp)).tdiv SECONDS_PER_YEAR
  if years_since_launch ≤ 0 then
    cfg.base_price_usd_micro
  else
    compound_price cfg.annual_increase_bps cfg.base_price_usd_micro
      (min years_since_launch.toNat 50) % U64_MOD

/-- `Config::calculate_registration_price_usd`. -/
def Config.calculate_registration_price_usd (cfg : Config) (current_time : Int)
    (years : Nat) : Nat :=
  let years := min years MAX_REGISTRATION_YEARS
  if years = 0 then 0
  else
    let yearly_price := cfg.get_current_yearly_price_usd current_time
    let base_total := yearly_price * years % U64_MOD
    let discount_bps := MULTI_YEAR_DISCOUNT_BPS.getD (years - 1) 0
    let discount := base_total * discount_bps % U64_MOD / 10000
    sub64 base_total discount

/-- `Config::usd_to_lamports`: `usd_micro * 1e9 / sol_price_micro` in `u128`,
cast back to `u64`.  A zero `sol_price_micro` is a Rust division-by-zero
panic, modelled as `trap`. -/
def usd_to_lamports (usd_micro sol_price_micro : Nat) : Outcome Nat :=
  if sol_price_micro = 0 then .trap
  else .ok (usd_micro * 1000000000 % U128_MOD / sol_price_micro % U64_MOD)

/-- `Config::get_keeper_reward_lamports`. -/
def Config.get_keeper_reward_lamports (cfg : Config) : Nat :=
  cfg.keeper_reward_lamports

/-- `usd_micro_to_tns_with_oracle` (`helpers/payment.rs`): converts USD
micro-cents to TNS raw units at the oracle price; division by a zero price is
a Rust panic, modelled as `trap`. -/
def usd_micro_to_tns_with_oracle (usd_micro tns_price_micro : Nat) : Outcome Nat :=
  if tns_price_micro = 0 then .trap
  else .ok (usd_micro * 1000000 % U128_MOD / tns_price_micro % U64_MOD)

/-! ## Pyth oracle (`utils.rs::get_sol_price_micro`)

The account is modelled by its parsed fields.  `owner_is_pyth` is the
owner-program check; `format_ok` stands for the data-length and magic-number
checks on the raw bytes (byte-level parsing is an external adapter detail).
-/

structure PythFeed where
  key : Nat
  owner_is_pyth : Bool
  format_ok : Bool
  exponent : Int
  price : Int
  publish_time : Int
  deriving DecidableEq, Repr

/-- `get_sol_price_micro`: validates the feed, checks staleness and
positivity, then rescales the price to micro-cents (exponent `-6`).  The
`as u64` cast of the non-negative `i128` value truncates to 64 bits. -/
def get_sol_price_micro (feed : PythFeed) (current_timestamp : Int) : Outcome Nat :=
  if ¬feed.owner_is_pyth then .err .InvalidPriceFeed
  else if ¬feed.format_ok then .err .InvalidPriceFeed
  else if ¬(current_timestamp - feed.publish_time ≤ MAX_PRICE_STALENESS_SECONDS) then
    .err .StalePriceFeed
  else if ¬(feed.price > 0) then .err .InvalidPriceFeed
  else
    let target_exp := feed.exponent + 6
    let v : Int :=
      if target_exp ≥ 0 then feed.price * 10 ^ target_exp.toNat
      else feed.price.tdiv (10 ^ (-target_exp).toNat)
    .ok (v.toNat % U64_MOD)

/-! ## Token metadata (`helpers/validation.rs`)

A mint account is modelled with its address, owning program discriminant
(Token-2022 or classic SPL) and, for Token-2022, the symbol of its embedded
metadata extension when parseable.  A Metaplex metadata account carries the
PDA/deserialization checks plus the parsed fields; its stored symbol is taken
already stripped of trailing NULs (the source trims them on read). -/

structure MintInfo where
  key : Nat
  is_token_2022 : Bool
  token2022_symbol : Option String
  deriving DecidableEq, Repr

structure MetaplexData where
  symbol : String
  is_mutable : Bool
  update_authority : Nat
  deriving DecidableEq, Repr

structure MetadataInfo where
  key : Nat
  is_metadata_pda_for_mint : Bool
  deserializes : Bool
  data : MetaplexData
  deriving DecidableEq, Repr

/-- `parse_metadata`: PDA address check then deserialization. -/
def parse_metadata (mi : MetadataInfo) : Except TnsError MetaplexData :=
  if ¬mi.is_metadata_pda_for_mint then .error .InvalidMetadata
  else if ¬mi.deserializes then .error .InvalidMetadata
  else .ok mi.data

/-- `extract_metadata_symbol`: Token-2022 mints must pass the mint itself as
the metadata account (embedded extension); classic SPL mints must pass the
Metaplex metadata PDA. -/
def extract_metadata_symbol (mi : MetadataInfo) (mint : MintInfo) :
    Except TnsError String :=
  if mint.is_token_2022 then
    if ¬(mi.key = mint.key) then .error .InvalidMetadata
    else
      match mint.token2022_symbol with
      | none => .error .InvalidMetadata
      | some s => .ok s
  else
    if mi.key = mint.key then .error .InvalidMetadata
    else
      match parse_metadata mi with
      | .error e => .error e
      | .ok md => .ok md.symbol

/-- `validate_mint_metadata`: the extracted symbol must equal the expected
symbol exactly (case-sensitive).  Note: this is the whole check — no other
metadata field is inspected. -/
def validate_mint_metadata (mi : MetadataInfo) (mint : MintInfo)
    (expected_symbol : String) : Except TnsError Unit :=
  match extract_metadata_symbol mi mint with
  | .error e => .error e
  | .ok s => if ¬(s = expected_symbol) then .error .MetadataSymbolMismatch else .ok ()

/-! ## Validation helpers (`helpers/validation.rs`) -/

/-- `validate_not_paused`. -/
def validate_not_paused (cfg : Config) : Except TnsError Unit :=
  if cfg.paused then .error .Paused else .ok ()

/-- `validate_symbol_format`: non-empty and at most 10 characters;
case-preserving. -/
def validate_symbol_format (symbol : String) : Except TnsError String :=
  if ¬(symbol.length ≠ 0 ∧ symbol.length ≤ MAX_SYMBOL_LENGTH) then
    .error .InvalidSymbolLength
  else .ok symbol

/-- `validate_and_calculate_expiration`: requires `years >= 1`, computes
`base_time + years * SECONDS_PER_YEAR` (i64) and rejects when it exceeds
`current_time + 10 * SECONDS_PER_YEAR`. -/
def validate_and_calculate_expiration (base_time : Int) (years : Nat)
    (current_time : Int) : Except TnsError Int :=
  if ¬(years ≥ 1) then .error .InvalidYears
  else
    let expires_at := wrap64 (base_time + (years : Int) * SECONDS_PER_YEAR)
    let max_allowed := wrap64 (current_time + (MAX_REGISTRATION_YEARS : Int) * SECONDS_PER_YEAR)
    if ¬(expires_at ≤ max_allowed) then .error .ExceedsMaxYears
    else .ok expires_at

/-- `validate_symbol_not_expired`. -/
def validate_symbol_not_expired (tok : Token) (current_time : Int) :
    Except TnsError Unit :=
  if tok.is_expired current_time then .error .SymbolExpired else .ok ()

/-- `validate_mint_different`. -/
def validate_mint_different (current_mint new_mint : Nat) : Except TnsError Unit :=
  if current_mint = new_mint then .error .SameMint else .ok ()

/-- `validate_slippage`. -/
def validate_slippage (actual_cost max_cost : Nat) : Except TnsError Unit :=
  if ¬(actual_cost ≤ max_cost) then .error .SlippageExceeded else .ok ()

/-- `validate_symbol_claimable`. -/
def validate_symbol_claimable (tok : Token) (current_time : Int) :
    Except TnsError Unit :=
  if ¬tok.is_expired current_time then .error .SymbolNotExpired else .ok ()

/-- `validate_symbol_cancelable`. -/
def validate_symbol_cancelable (tok : Token) (current_time : Int) :
    Except TnsError Unit :=
  if ¬tok.is_cancelable current_time then .error .NotYetCancelable else .ok ()

/-- `validate_platform_fee_bps`. -/
def validate_platform_fee_bps (platform_fee_bps : Nat) : Except TnsError Unit :=
  if ¬(platform_fee_bps ≤ MAX_PLATFORM_FEE_BPS) then .error .PlatformFeeExceedsMax
  else .ok ()

/-! ## Symbol classification (`symbol_status/status.rs`)

The membership list behind `is_reserved_tradfi` (`symbol_status/reserved.rs`,
the TradFi ticker tables) is data of this repository not present under `src/`;
the classifier is therefore parametrized by that membership predicate. -/

inductive SymbolStatus where
  | ReservedTradfi
  | NotListed
  deriving DecidableEq, Repr

/-- `get_symbol_status`, with the reserved-TradFi list abstracted. -/
def get_symbol_status (is_reserved_tradfi : String → Bool) (symbol : String) :
    SymbolStatus :=
  if is_reserved_tradfi symbol then .ReservedTradfi else .NotListed

/-- `validate_registration_access` (`helpers/validation.rs`): Phase 1 requires
the payer to be the admin for every symbol; Phase 2 requires the admin only
for reserved TradFi symbols; Phase 3 and above performs no check.  The mint
and token-mint arguments of the source are unused (`_mint`, `_token_mint`). -/
def validate_registration_access (is_reserved_tradfi : String → Bool)
    (cfg : Config) (symbol : String) (_mint payer : Nat) : Except TnsError Unit :=
  let symbol_status := get_symbol_status is_reserved_tradfi symbol
  if cfg.phase = 1 then
    if ¬(payer = cfg.admin) then .error .AdminOnlyRegistration else .ok ()
  else if cfg.phase = 2 ∧ symbol_status = .ReservedTradfi then
    if ¬(payer = cfg.admin) then .error .SymbolReserved else .ok ()
  else .ok ()

/-! ## Payment helpers (`helpers/payment.rs`) -/

structure SolFeeBreakdown where
  fee_lamports : Nat
  keeper_reward_lamports : Nat
  deriving DecidableEq, Repr

/-- `calculate_fees_sol`: oracle price, then USD quote, then lamports; the
keeper reward is read from the config field. -/
def calculate_fees_sol (cfg : Config) (current_time : Int) (years : Nat)
    (sol_price_feed : PythFeed) : Outcome SolFeeBreakdown :=
  match get_sol_price_micro sol_price_feed current_time with
  | .err e => .err e
  | .trap => .trap
  | .ok sol_price_micro =>
    let fee_usd_micro := cfg.calculate_registration_price_usd current_time years
    match usd_to_lamports fee_usd_micro sol_price_micro with
    | .err e => .err e
    | .trap => .trap
    | .ok fee_lamports => .ok ⟨fee_lamports, cfg.get_keeper_reward_lamports⟩

structure UpdateFeeBreakdown where
  fee_lamports : Nat
  fee_usd_micro : Nat
  deriving DecidableEq, Repr

/-- `calculate_update_fee`: a basis-point fraction of the current yearly
price. -/
def calculate_update_fee (cfg : Config) (current_time : Int)
    (sol_price_feed : PythFeed) : Outcome UpdateFeeBreakdown :=
  match get_sol_price_micro sol_price_feed current_time with
  | .err e => .err e
  | .trap => .trap
  | .ok sol_price_micro =>
    let yearly_price_usd_micro := cfg.get_current_yearly_price_usd current_time
    let fee_usd_micro := yearly_price_usd_micro * cfg.update_fee_bps % U64_MOD / 10000
    match usd_to_lamports fee_usd_micro sol_price_micro with
    | .err e => .err e
    | .trap => .trap
    | .ok fee_lamports => .ok ⟨fee_lamports, fee_usd_micro⟩

/-- `calculate_platform_split`: returns `(treasury_amount, platform_amount)`. -/
def calculate_platform_split (total_amount platform_fee_bps : Nat) : Nat × Nat :=
  if platform_fee_bps = 0 then (total_amount, 0)
  else
    let platform_amount := total_amount * platform_fee_bps % U64_MOD / 10000
    (sub64 total_amount platform_amount, platform_amount)

/-! ## Instruction handlers (`instructions/registrar/*`)

Anchor account constraints that carry a semantic check (`address = ...`,
`has_one = ...`, `constraint = ... @ Error`) run before the handler body and
are modelled as the leading checks of each function.  Value transfers are
external collaborators; each handler returns the amounts it instructs to be
moved. -/

/-- Result of a successful SOL registration. -/
structure RegisterResult where
  token : Token
  fee_lamports : Nat
  keeper_funded : Nat
  platform_fee_paid : Nat
  deriving DecidableEq, Repr

/-- `register::sol::handler` (plus the `sol_usd_price_feed` address
constraint).  `is_reserved_tradfi` abstracts the reserved-ticker list. -/
def register_symbol_sol (is_reserved_tradfi : String → Bool) (cfg : Config)
    (payer : Nat) (token_mint : MintInfo) (token_metadata : MetadataInfo)
    (sol_usd_price_feed : PythFeed) (symbol : String) (years : Nat)
    (max_sol_cost : Nat) (platform_fee_bps : Nat) (now : Int) :
    Outcome RegisterResult :=
  if ¬(sol_usd_price_feed.key = cfg.sol_usd_pyth_feed) then .err .PriceFeedMismatch
  else if cfg.paused then .err .Paused
  else
    match validate_symbol_format symbol with
    | .error e => .err e
    | .ok normalized_symbol =>
      match validate_and_calculate_expiration now years now with
      | .error e => .err e
      | .ok expires_at =>
        match validate_registration_access is_reserved_tradfi cfg normalized_symbol
            token_mint.key payer with
        | .error e => .err e
        | .ok _ =>
          match validate_mint_metadata token_metadata token_mint normalized_symbol with
          | .error e => .err e
          | .ok _ =>
            match validate_platform_fee_bps platform_fee_bps with
            | .error e => .err e
            | .ok _ =>
              match calculate_fees_sol cfg now years sol_usd_price_feed with
              | .err e => .err e
              | .trap => .trap
              | .ok fees =>
                let total_cost := (fees.fee_lamports + fees.keeper_reward_lamports) % U64_MOD
                match validate_slippage total_cost max_sol_cost with
                | .error e => .err e
                | .ok _ =>
                  let platform_fee_paid :=
                    (calculate_platform_split fees.fee_lamports platform_fee_bps).2
                  .ok ⟨{ symbol := normalized_symbol
                         mint := token_mint.key
                         owner := payer
                         registered_at := now
                         expires_at := expires_at },
                       fees.fee_lamports, fees.keeper_reward_lamports, platform_fee_paid⟩

/-- Result of a successful renewal. -/
structure RenewResult where
  token : Token
  fee_lamports : Nat
  platform_fee_paid : Nat
  deriving DecidableEq, Repr

/-- `renew::sol::handler` (plus the `sol_usd_price_feed` address constraint).
Renewal extends from the record's current `expires_at` and pays no keeper
reward. -/
def renew_symbol_sol (cfg : Config) (tok : Token) (sol_usd_price_feed : PythFeed)
    (years : Nat) (max_sol_cost : Nat) (platform_fee_bps : Nat) (now : Int) :
    Outcome RenewResult :=
  if ¬(sol_usd_price_feed.key = cfg.sol_usd_pyth_feed) then .err .PriceFeedMismatch
  else if cfg.paused then .err .Paused
  else
    match validate_symbol_not_expired tok now with
    | .error e => .err e
    | .ok _ =>
      match validate_and_calculate_expiration tok.expires_at years now with
      | .error e => .err e
      | .ok new_expires_at =>
        match validate_platform_fee_bps platform_fee_bps with
        | .error e => .err e
        | .ok _ =>
          match calculate_fees_sol cfg now years sol_usd_price_feed with
          | .err e => .err e
          | .trap => .trap
          | .ok fees =>
            match validate_slippage fees.fee_lamports max_sol_cost with
            | .error e => .err e
            | .ok _ =>
              let platform_fee_paid :=
                (calculate_platform_split fees.fee_lamports platform_fee_bps).2
              .ok ⟨{ tok with expires_at := new_expires_at },
                   fees.fee_lamports, platform_fee_paid⟩

/-- Result of a successful claim of an expired symbol. -/
structure ClaimResult where
  token : Token
  fee_lamports : Nat
  platform_fee_paid : Nat
  deriving DecidableEq, Repr

/-- `claim::sol::handler` (plus the `sol_usd_price_feed` address constraint).
Claims an expired symbol: new owner is the payer; mint and expiry reset;
`registered_at` and the symbol string are preserved. -/
def claim_expired_symbol_sol (cfg : Config) (tok : Token) (payer : Nat)
    (new_mint : MintInfo) (new_mint_metadata : MetadataInfo)
    (sol_usd_price_feed : PythFeed) (years : Nat) (max_sol_cost : Nat)
    (platform_fee_bps : Nat) (now : Int) : Outcome ClaimResult :=
  if ¬(sol_usd_price_feed.key = cfg.sol_usd_pyth_feed) then .err .PriceFeedMismatch
  else if cfg.paused then .err .Paused
  else
    match validate_symbol_claimable tok now with
    | .error e => .err e
    | .ok _ =>
      match validate_and_calculate_expiration now years now with
      | .error e => .err e
      | .ok expires_at =>
        match validate_mint_metadata new_mint_metadata new_mint tok.symbol with
        | .error e => .err e
        | .ok _ =>
          match validate_platform_fee_bps platform_fee_bps with
          | .error e => .err e
          | .ok _ =>
            match calculate_fees_sol cfg now years sol_usd_price_feed with
            | .err e => .err e
            | .trap => .trap
            | .ok fees =>
              match validate_slippage fees.fee_lamports max_sol_cost with
              | .error e => .err e
              | .ok _ =>
                let platform_fee_paid :=
                  (calculate_platform_split fees.fee_lamports platform_fee_bps).2
                .ok ⟨{ tok with
                       mint := new_mint.key
                       owner := payer
                       expires_at := expires_at },
                     fees.fee_lamports, platform_fee_paid⟩

/-- Result of a successful mint update. -/
structure UpdateMintResult where
  token : Token
  fee_lamports : Nat
  platform_fee_paid : Nat
  deriving DecidableEq, Repr

/-- `update_mint::sol::handler` (plus the `has_one = owner` and price-feed
address constraints; `signer` is the transaction signer). -/
def update_mint_sol (cfg : Config) (tok : Token) (signer : Nat)
    (new_mint : MintInfo) (new_mint_metadata : MetadataInfo)
    (sol_usd_price_feed : PythFeed) (max_sol_cost : Nat) (platform_fee_bps : Nat)
    (now : Int) : Outcome UpdateMintResult :=
  if ¬(signer = tok.owner) then .err .Unauthorized
  else if ¬(sol_usd_price_feed.key = cfg.sol_usd_pyth_feed) then .err .PriceFeedMismatch
  else if cfg.paused then .err .Paused
  else
    match validate_symbol_not_expired tok now with
    | .error e => .err e
    | .ok _ =>
      match validate_mint_different tok.mint new_mint.key with
      | .error e => .err e
      | .ok _ =>
        match validate_mint_metadata new_mint_metadata new_mint tok.symbol with
        | .error e => .err e
        | .ok _ =>
          match validate_platform_fee_bps platform_fee_bps with
          | .error e => .err e
          | .ok _ =>
            match calculate_update_fee cfg now sol_usd_price_feed with
            | .err e => .err e
            | .trap => .trap
            | .ok fee =>
              match validate_slippage fee.fee_lamports max_sol_cost with
              | .error e => .err e
              | .ok _ =>
                let platform_fee_paid :=
                  (calculate_platform_split fee.fee_lamports platform_fee_bps).2
                .ok ⟨{ tok with mint := new_mint.key }, fee.fee_lamports,
                     platform_fee_paid⟩

/-- `transfer_ownership::handler` (plus the `has_one = owner` constraint). -/
def transfer_ownership (cfg : Config) (tok : Token) (signer new_owner : Nat) :
    Outcome Token :=
  if ¬(signer = tok.owner) then .err .Unauthorized
  else if cfg.paused then .err .Paused
  else if tok.owner = new_owner then .err .SameOwner
  else .ok { tok with owner := new_owner }

/-- A token mint as read for the ownership-claim paths. -/
structure MintAccount where
  key : Nat
  mint_authority : Option Nat
  supply : Nat
  deriving DecidableEq, Repr

/-- The claimant's token account balance, when supplied. -/
structure ClaimantTokenAccount where
  amount : Nat
  deriving DecidableEq, Repr

/-- `claim_ownership::handler` (plus the `token_mint.key() ==
token_account.mint` constraint).  Succeeds when the claimant is not already
the owner and is the mint authority, the metadata update authority, or holds
strictly more than half the supply; only the owner field changes, and the
satisfied path is recorded. -/
def claim_ownership (cfg : Config) (tok : Token) (claimant : Nat)
    (token_mint : MintAccount) (token_metadata : MetadataInfo)
    (claimant_token_account : Option ClaimantTokenAccount) :
    Outcome (Token × String) :=
  if ¬(token_mint.key = tok.mint) then .err .InvalidMint
  else if cfg.paused then .err .Paused
  else if tok.owner = claimant then .err .AlreadyOwner
  else if ¬token_metadata.is_metadata_pda_for_mint then .err .InvalidMetadata
  else if ¬token_metadata.deserializes then .err .InvalidMetadata
  else
    let is_mint_authority : Bool :=
      match token_mint.mint_authority with
      | some auth => auth = claimant
      | none => false
    let is_update_authority : Bool := token_metadata.data.update_authority = claimant
    let is_majority_holder : Bool :=
      match claimant_token_account with
      | some ata =>
        if token_mint.supply > 0 then ata.amount > token_mint.supply / 2 else false
      | none => false
    if is_mint_authority || is_update_authority || is_majority_holder then
      let claim_type :=
        if is_mint_authority then "mint_authority"
        else if is_update_authority then "update_authority"
        else "majority_holder"
      .ok ({ tok with owner := claimant }, claim_type)
    else .err .NotTokenAuthority

/-- Result of a successful cancel / drift-close: the record is destroyed, its
rent goes to the keeper, and the keeper reward (0 when the pool is
underfunded) is debited from the config account. -/
structure CloseResult where
  rent_returned : Nat
  keeper_reward_paid : Nat
  config_balance_after : Nat
  deriving DecidableEq, Repr

/-- `cancel_symbol::handler`: only a cancelable record (one year past grace)
may be closed; the fixed `KEEPER_REWARD_LAMPORTS` is paid only when the
config balance strictly exceeds its rent-exempt minimum plus the reward. -/
def cancel_symbol (cfg : Config) (tok : Token) (config_balance min_rent
    token_account_lamports : Nat) (now : Int) : Outcome CloseResult :=
  if cfg.paused then .err .Paused
  else if ¬tok.is_cancelable now then .err .NotYetCancelable
  else
    let keeper_reward := KEEPER_REWARD_LAMPORTS
    if config_balance > min_rent + keeper_reward then
      .ok ⟨token_account_lamports, keeper_reward, config_balance - keeper_reward⟩
    else
      .ok ⟨token_account_lamports, 0, config_balance⟩

/-- `verify_or_close::handler` (DriftClose, plus the `address =
token_account.mint` constraint): fails with `NoDriftDetected` when the live
metadata symbol still equals the stored symbol; otherwise destroys the record
and pays the keeper under the same funding rule as cancel.  There is no
paused check and no temporal-state check. -/
def verify_or_close (_cfg : Config) (tok : Token) (token_mint : MintInfo)
    (token_metadata : MetadataInfo) (config_balance min_rent
    token_account_lamports : Nat) (_now : Int) : Outcome CloseResult :=
  if ¬(token_mint.key = tok.mint) then .err .InvalidMint
  else
    match extract_metadata_symbol token_metadata token_mint with
    | .error e => .err e
    | .ok metadata_symbol =>
      if ¬(metadata_symbol ≠ tok.symbol) then .err .NoDriftDetected
      else
        let keeper_reward := KEEPER_REWARD_LAMPORTS
        if config_balance > min_rent + keeper_reward then
          .ok ⟨token_account_lamports, keeper_reward, config_balance - keeper_reward⟩
        else
          .ok ⟨token_account_lamports, 0, config_balance⟩

/-! ## Example inputs used by witness theorems -/

/-- A config with the pricing fields exactly as `initialize.rs` writes them
(`base_price_usd_micro = BASE_PRICE_USD_MICRO`, `annual_increase_bps =
ANNUAL_INCREASE_BPS`, `keeper_reward_lamports = KEEPER_REWARD_LAMPORTS`),
unpaused and moved to phase 2. -/
def exampleConfig : Config where
  admin := 1
  fee_collector := 2
  base_price_usd_micro := BASE_PRICE_USD_MICRO
  annual_increase_bps := ANNUAL_INCREASE_BPS
  update_fee_bps := UPDATE_FEE_BPS
  sol_usd_pyth_feed := 7
  tns_usd_pyth_feed := none
  keeper_reward_lamports := KEEPER_REWARD_LAMPORTS
  launch_timestamp := 0
  paused := false
  phase := 2

/-- A fresh, valid Pyth feed at key 7 quoting 200 USD with exponent `-8`. -/
def exampleFeed : PythFeed where
  key := 7
  owner_is_pyth := true
  format_ok := true
  exponent := -8
  price := 20000000000
  publish_time := 0

/-! ## Arithmetic helper lemmas -/

theorem wrap64_eq_of_bounds {x : Int} (h1 : -(2 ^ 63) ≤ x) (h2 : x < 2 ^ 63) :
    wrap64 x = x := by
  unfold wrap64
  rw [Int.emod_eq_of_lt (by omega) (by omega)]
  omega

theorem sub64_eq_of_le {a b : Nat} (hba : b ≤ a) (ha : a < U64_MOD) :
    sub64 a b = a - b := by
  unfold sub64
  have h : U64_MOD + a - b = U64_MOD + (a - b) := by omega
  rw [h, Nat.add_mod_left, Nat.mod_eq_of_lt (by omega)]

theorem tdiv_le_tdiv_of_le {a b d : Int} (hd : 0 < d) (h : a ≤ b) :
    a.tdiv d ≤ b.tdiv d := by
  have neg_eq : ∀ c : Int, c.tdiv d = -((-c).tdiv d) := by
    intro c
    rw [Int.neg_tdiv]
    omega
  rcases le_or_lt 0 a with ha | ha
  · rw [Int.tdiv_eq_ediv ha hd.le, Int.tdiv_eq_ediv (le_trans ha h) hd.le]
    exact Int.ediv_le_ediv hd h
  · rcases le_or_lt 0 b with hb | hb
    · have h1 : 0 ≤ (-a).tdiv d := Int.tdiv_nonneg (by omega) hd.le
      have h2 : 0 ≤ b.tdiv d := Int.tdiv_nonneg hb hd.le
      rw [neg_eq a]
      omega
    · have hsw : (-b).tdiv d ≤ (-a).tdiv d := by
        rw [Int.tdiv_eq_ediv (by omega) hd.le, Int.tdiv_eq_ediv (by omega) hd.le]
        exact Int.ediv_le_ediv hd (by omega)
      rw [neg_eq a, neg_eq b]
      omega

/-! ## Pricing lemmas -/

theorem compound_price_bounds :
    ∀ k, k < 51 → 10000000 ≤ compound_price 700 10000000 k ∧
      compound_price 700 10000000 k < 300000000 := by decide

theorem compound_price_step_le :
    ∀ k, k < 50 →
      compound_price 700 10000000 k ≤ compound_price 700 10000000 (k + 1) := by decide

theorem compound_price_mono {k1 k2 : Nat} (h : k1 ≤ k2) (h50 : k2 ≤ 50) :
    compound_price 700 10000000 k1 ≤ compound_price 700 10000000 k2 := by
  induction k2 with
  | zero =>
    have : k1 = 0 := Nat.le_zero.mp h
    simp [this]
  | succ n ih =>
    rcases Nat.lt_or_ge k1 (n + 1) with hlt | hge
    · exact le_trans (ih (Nat.lt_succ_iff.mp hlt) (by omega))
        (compound_price_step_le n (by omega))
    · have : k1 = n + 1 := by omega
      simp [this]

/-- The current yearly price as a plain conditional (zeta-reduced form of
the definition). -/
theorem get_current_yearly_price_cases (cfg : Config) (t : Int) :
    cfg.get_current_yearly_price_usd t =
      if (wrap64 (t - cfg.launch_timestamp)).tdiv SECONDS_PER_YEAR ≤ 0 then
        cfg.base_price_usd_micro
      else
        compound_price cfg.annual_increase_bps cfg.base_price_usd_micro
          (min ((wrap64 (t - cfg.launch_timestamp)).tdiv SECONDS_PER_YEAR).toNat 50)
          % U64_MOD := rfl

/-- The current yearly price, with the `i64` wrap rewritten away (valid
whenever `t - launch` fits in `i64`). -/
theorem get_current_yearly_price_eq (cfg : Config) (t : Int)
    (hw : wrap64 (t - cfg.launch_timestamp) = t - cfg.launch_timestamp) :
    cfg.get_current_yearly_price_usd t =
      if (t - cfg.launch_timestamp).tdiv SECONDS_PER_YEAR ≤ 0 then
        cfg.base_price_usd_micro
      else
        compound_price cfg.annual_increase_bps cfg.base_price_usd_micro
          (min ((t - cfg.launch_timestamp).tdiv SECONDS_PER_YEAR).toNat 50) % U64_MOD := by
  rw [get_current_yearly_price_cases, hw]

/-- With the pricing fields as written by `initialize.rs`, the yearly price
always lies in `[BASE_PRICE_USD_MICRO, 300000000)`; in particular the final
`as u64` cast never truncates. -/
theorem yearly_price_bounds (cfg : Config) (t : Int)
    (hb : cfg.base_price_usd_micro = BASE_PRICE_USD_MICRO)
    (ha : cfg.annual_increase_bps = ANNUAL_INCREASE_BPS) :
    BASE_PRICE_USD_MICRO ≤ cfg.get_current_yearly_price_usd t ∧
      cfg.get_current_yearly_price_usd t < 300000000 := by
  rw [get_current_yearly_price_cases]
  split
  · rw [hb]
    exact ⟨le_refl _, by norm_num [BASE_PRICE_USD_MICRO]⟩
  · simp only [hb, ha, BASE_PRICE_USD_MICRO, ANNUAL_INCREASE_BPS]
    have hk : min ((wrap64 (t - cfg.launch_timestamp)).tdiv SECONDS_PER_YEAR).toNat 50 < 51 :=
      Nat.lt_succ_of_le (Nat.min_le_right _ _)
    have hcb := compound_price_bounds _ hk
    have hlt : compound_price 700 10000000
        (min ((wrap64 (t - cfg.launch_timestamp)).tdiv SECONDS_PER_YEAR).toNat 50) <
        U64_MOD := lt_trans hcb.2 (by norm_num [U64_MOD])
    rw [Nat.mod_eq_of_lt hlt]
    exact ⟨hcb.1, hcb.2⟩

/-- The registration quote as a plain conditional (zeta-reduced form of the
definition). -/
theorem calculate_registration_price_cases (cfg : Config) (t : Int) (years : Nat) :
    cfg.calculate_registration_price_usd t years =
      if min years MAX_REGISTRATION_YEARS = 0 then 0
      else
        sub64 (cfg.get_current_yearly_price_usd t * min years MAX_REGISTRATION_YEARS % U64_MOD)
          (cfg.get_current_yearly_price_usd t * min years MAX_REGISTRATION_YEARS % U64_MOD *
            MULTI_YEAR_DISCOUNT_BPS.getD (min years MAX_REGISTRATION_YEARS - 1) 0
            % U64_MOD / 10000) := rfl

theorem discount_bps_le_2500 :
    ∀ m, m < 11 → MULTI_YEAR_DISCOUNT_BPS.getD (m - 1) 0 ≤ 2500 := by decide

/-- C1: for every year count `n` in `1..=10` and every time `t`, the
multi-year quote equals `n * yearly_price` minus the tabulated discount
`total * discount_bps(n) / 10000`; it equals the yearly price at `n = 1` and
is strictly below `n * yearly_price` whenever the table entry is positive.
The pricing fields are those `initialize.rs` writes (the program never stores
any others), which keeps every intermediate product inside `u64`. -/
theorem claim_C1_multi_year_quote (cfg : Config) (t : Int) (n : Nat)
    (hb : cfg.base_price_usd_micro = BASE_PRICE_USD_MICRO)
    (ha : cfg.annual_increase_bps = ANNUAL_INCREASE_BPS)
    (h1 : 1 ≤ n) (h10 : n ≤ 10) :
    cfg.calculate_registration_price_usd t n =
      cfg.get_current_yearly_price_usd t * n -
        cfg.get_current_yearly_price_usd t * n * MULTI_YEAR_DISCOUNT_BPS.getD (n - 1) 0
          / 10000
    ∧ (n = 1 →
        cfg.calculate_registration_price_usd t n = cfg.get_current_yearly_price_usd t)
    ∧ (0 < MULTI_YEAR_DISCOUNT_BPS.getD (n - 1) 0 →
        cfg.calculate_registration_price_usd t n <
          n * cfg.get_current_yearly_price_usd t) := by
  obtain ⟨hyl, hyu⟩ := yearly_price_bounds cfg t hb ha
  have hbase : (10000000 : Nat) ≤ cfg.get_current_yearly_price_usd t := hyl
  set yp := cfg.get_current_yearly_price_usd t with hyp
  have hmin : min n MAX_REGISTRATION_YEARS = n := by
    simp only [MAX_REGISTRATION_YEARS]
    omega
  have hbps : MULTI_YEAR_DISCOUNT_BPS.getD (n - 1) 0 ≤ 2500 :=
    discount_bps_le_2500 n (by omega)
  have hA : yp * n < 3000000000 := by
    calc yp * n ≤ yp * 10 := Nat.mul_le_mul_left yp h10
    _ < 300000000 * 10 := (Nat.mul_lt_mul_right (by norm_num)).mpr hyu
    _ = 3000000000 := by norm_num
  have hAm : yp * n % U64_MOD = yp * n :=
    Nat.mod_eq_of_lt (lt_trans hA (by norm_num [U64_MOD]))
  have hD : yp * n * MULTI_YEAR_DISCOUNT_BPS.getD (n - 1) 0 < U64_MOD := by
    calc yp * n * MULTI_YEAR_DISCOUNT_BPS.getD (n - 1) 0
        ≤ yp * n * 2500 := Nat.mul_le_mul_left _ hbps
    _ < 3000000000 * 2500 := (Nat.mul_lt_mul_right (by norm_num)).mpr hA
    _ < U64_MOD := by norm_num [U64_MOD]
  have hDm : yp * n * MULTI_YEAR_DISCOUNT_BPS.getD (n - 1) 0 % U64_MOD =
      yp * n * MULTI_YEAR_DISCOUNT_BPS.getD (n - 1) 0 := Nat.mod_eq_of_lt hD
  have hle : yp * n * MULTI_YEAR_DISCOUNT_BPS.getD (n - 1) 0 / 10000 ≤ yp * n := by
    calc yp * n * MULTI_YEAR_DISCOUNT_BPS.getD (n - 1) 0 / 10000
        ≤ yp * n * 10000 / 10000 :=
          Nat.div_le_div_right (Nat.mul_le_mul_left _ (le_trans hbps (by norm_num)))
    _ = yp * n := Nat.mul_div_cancel _ (by norm_num)
  have hmain : cfg.calculate_registration_price_usd t n =
      yp * n - yp * n * MULTI_YEAR_DISCOUNT_BPS.getD (n - 1) 0 / 10000 := by
    rw [calculate_registration_price_cases, hmin, if_neg (by omega), ← hyp, hAm, hDm,
      sub64_eq_of_le hle (lt_trans hA (by norm_num [U64_MOD]))]
  refine ⟨hmain, ?_, ?_⟩
  · intro hn1
    subst hn1
    rw [hmain]
    simp [MULTI_YEAR_DISCOUNT_BPS]
  · intro hpos
    rw [hmain, Nat.mul_comm n yp]
    have hd1 : 1 ≤ yp * n * MULTI_YEAR_DISCOUNT_BPS.getD (n - 1) 0 / 10000 := by
      rw [Nat.le_div_iff_mul_le (by norm_num)]
      calc 1 * 10000 = 10000 := by norm_num
      _ ≤ 10000000 := by norm_num
      _ ≤ yp := hbase
      _ ≤ yp * n := Nat.le_mul_of_pos_right yp (by omega)
      _ ≤ yp * n * MULTI_YEAR_DISCOUNT_BPS.getD (n - 1) 0 :=
          Nat.le_mul_of_pos_right _ hpos
    exact Nat.sub_lt (by positivity) (by omega)

/-- Witness for C1 at the production config, `t = 0`, `n = 5`. -/
theorem claim_C1_multi_year_quote_witness :
    exampleConfig.calculate_registration_price_usd 0 5 =
      exampleConfig.get_current_yearly_price_usd 0 * 5 -
        exampleConfig.get_current_yearly_price_usd 0 * 5 *
          MULTI_YEAR_DISCOUNT_BPS.getD (5 - 1) 0 / 10000
    ∧ (5 = 1 →
        exampleConfig.calculate_registration_price_usd 0 5 =
          exampleConfig.get_current_yearly_price_usd 0)
    ∧ (0 < MULTI_YEAR_DISCOUNT_BPS.getD (5 - 1) 0 →
        exampleConfig.calculate_registration_price_usd 0 5 <
          5 * exampleConfig.get_current_yearly_price_usd 0) :=
  claim_C1_multi_year_quote exampleConfig 0 5 rfl rfl (by decide) (by decide)

/-- C3: holding the config fixed (with the pricing fields `initialize.rs`
writes, the only values the program ever stores) the current yearly price is
monotonically non-decreasing in time.  The timestamp bounds keep the `i64`
subtraction `now - launch_timestamp` away from wrap-around. -/
theorem claim_C3_price_growth_monotonic (cfg : Config) (t1 t2 : Int)
    (hb : cfg.base_price_usd_micro = BASE_PRICE_USD_MICRO)
    (ha : cfg.annual_increase_bps = ANNUAL_INCREASE_BPS)
    (hl1 : -(2 ^ 61) ≤ cfg.launch_timestamp) (hl2 : cfg.launch_timestamp ≤ 2 ^ 61)
    (ht1 : -(2 ^ 61) ≤ t1) (ht2 : t2 ≤ 2 ^ 61) (h12 : t1 < t2) :
    cfg.get_current_yearly_price_usd t1 ≤ cfg.get_current_yearly_price_usd t2 := by
  have hw1 : wrap64 (t1 - cfg.launch_timestamp) = t1 - cfg.launch_timestamp :=
    wrap64_eq_of_bounds (by omega) (by omega)
  have hw2 : wrap64 (t2 - cfg.launch_timestamp) = t2 - cfg.launch_timestamp :=
    wrap64_eq_of_bounds (by omega) (by omega)
  rw [get_current_yearly_price_eq cfg t1 hw1, get_current_yearly_price_eq cfg t2 hw2]
  have hy : (t1 - cfg.launch_timestamp).tdiv SECONDS_PER_YEAR ≤
      (t2 - cfg.launch_timestamp).tdiv SECONDS_PER_YEAR :=
    tdiv_le_tdiv_of_le (by norm_num [SECONDS_PER_YEAR]) (by omega)
  by_cases hc2 : (t2 - cfg.launch_timestamp).tdiv SECONDS_PER_YEAR ≤ 0
  · rw [if_pos (le_trans hy hc2), if_pos hc2]
  · rw [if_neg hc2]
    have hk2 : min ((t2 - cfg.launch_timestamp).tdiv SECONDS_PER_YEAR).toNat 50 < 51 :=
      Nat.lt_succ_of_le (Nat.min_le_right _ _)
    have hcb2 := compound_price_bounds _ hk2
    by_cases hc1 : (t1 - cfg.launch_timestamp).tdiv SECONDS_PER_YEAR ≤ 0
    · rw [if_pos hc1]
      simp only [hb, ha, BASE_PRICE_USD_MICRO, ANNUAL_INCREASE_BPS]
      rw [Nat.mod_eq_of_lt (lt_trans hcb2.2 (by norm_num [U64_MOD]))]
      exact hcb2.1
    · rw [if_neg hc1]
      simp only [hb, ha, BASE_PRICE_USD_MICRO, ANNUAL_INCREASE_BPS]
      have hk1 : min ((t1 - cfg.launch_timestamp).tdiv SECONDS_PER_YEAR).toNat 50 < 51 :=
        Nat.lt_succ_of_le (Nat.min_le_right _ _)
      have hcb1 := compound_price_bounds _ hk1
      rw [Nat.mod_eq_of_lt (lt_trans hcb1.2 (by norm_num [U64_MOD])),
        Nat.mod_eq_of_lt (lt_trans hcb2.2 (by norm_num [U64_MOD]))]
      exact compound_price_mono
        (min_le_min (Int.toNat_le_toNat hy) le_rfl) (Nat.min_le_right _ _)

/-- Witness for C3 at the production config, across the first year boundary. -/
theorem claim_C3_price_growth_monotonic_witness :
    exampleConfig.get_current_yearly_price_usd 0 ≤
      exampleConfig.get_current_yearly_price_usd 40000000 :=
  claim_C3_price_growth_monotonic exampleConfig 0 40000000 rfl rfl
    (by norm_num [exampleConfig]) (by norm_num [exampleConfig])
    (by norm_num) (by norm_num) (by norm_num)

/-! ## Expiration-validation lemmas -/

theorem validate_expiration_eq_ok {base_time now : Int} {years : Nat}
    (h1 : 1 ≤ years)
    (hw1 : wrap64 (base_time + (years : Int) * SECONDS_PER_YEAR) =
      base_time + (years : Int) * SECONDS_PER_YEAR)
    (hw2 : wrap64 (now + (MAX_REGISTRATION_YEARS : Int) * SECONDS_PER_YEAR) =
      now + (MAX_REGISTRATION_YEARS : Int) * SECONDS_PER_YEAR)
    (hle : base_time + (years : Int) * SECONDS_PER_YEAR ≤
      now + (MAX_REGISTRATION_YEARS : Int) * SECONDS_PER_YEAR) :
    validate_and_calculate_expiration base_time years now =
      .ok (base_time + (years : Int) * SECONDS_PER_YEAR) := by
  simp only [validate_and_calculate_expiration, hw1, hw2]
  rw [if_neg (by omega), if_neg (by omega)]

theorem validate_expiration_eq_err {base_time now : Int} {years : Nat}
    (h1 : 1 ≤ years)
    (hw1 : wrap64 (base_time + (years : Int) * SECONDS_PER_YEAR) =
      base_time + (years : Int) * SECONDS_PER_YEAR)
    (hw2 : wrap64 (now + (MAX_REGISTRATION_YEARS : Int) * SECONDS_PER_YEAR) =
      now + (MAX_REGISTRATION_YEARS : Int) * SECONDS_PER_YEAR)
    (hgt : now + (MAX_REGISTRATION_YEARS : Int) * SECONDS_PER_YEAR <
      base_time + (years : Int) * SECONDS_PER_YEAR) :
    validate_and_calculate_expiration base_time years now = .error .ExceedsMaxYears := by
  simp only [validate_and_calculate_expiration, hw1, hw2]
  rw [if_neg (by omega), if_pos (by omega)]

/-- C2: for a record still in Active or Grace state (`!is_expired`), SOL
renewal extends from the record's current `expires_at` (not from `now`) at
the renewal-time price level, never shortens the expiry, and fails with the
max-duration error (`ExceedsMaxYears` in the source) exactly when the new
expiry would exceed `now + 10 years`.  Timestamp/year bounds keep the `i64`
sums away from wrap-around (`years` is a `u8`). -/
theorem claim_C2_renewal_extends_from_expiry (cfg : Config) (tok : Token)
    (feed : PythFeed) (years max_sol_cost platform_fee_bps : Nat) (now : Int)
    (hkey : feed.key = cfg.sol_usd_pyth_feed)
    (hpause : cfg.paused = false)
    (hactive : tok.is_expired now = false)
    (hy : 1 ≤ years) (hy255 : years ≤ 255)
    (hexp1 : -(2 ^ 61) ≤ tok.expires_at) (hexp2 : tok.expires_at ≤ 2 ^ 61)
    (hnow1 : -(2 ^ 61) ≤ now) (hnow2 : now ≤ 2 ^ 61) :
    (∀ r, renew_symbol_sol cfg tok feed years max_sol_cost platform_fee_bps now = .ok r →
      r.token.expires_at = tok.expires_at + (years : Int) * SECONDS_PER_YEAR ∧
      tok.expires_at < r.token.expires_at ∧
      r.token.symbol = tok.symbol ∧ r.token.mint = tok.mint ∧
      r.token.owner = tok.owner ∧ r.token.registered_at = tok.registered_at ∧
      (∃ sp, get_sol_price_micro feed now = .ok sp ∧
        usd_to_lamports (cfg.calculate_registration_price_usd now years) sp =
          .ok r.fee_lamports))
    ∧ (now + (10 : Int) * SECONDS_PER_YEAR <
        tok.expires_at + (years : Int) * SECONDS_PER_YEAR →
      renew_symbol_sol cfg tok feed years max_sol_cost platform_fee_bps now =
        .err .ExceedsMaxYears) := by
  have hspy : SECONDS_PER_YEAR = (31557600 : Int) := rfl
  have hmax : (MAX_REGISTRATION_YEARS : Int) = (10 : Int) := rfl
  have hw1 : wrap64 (tok.expires_at + (years : Int) * SECONDS_PER_YEAR) =
      tok.expires_at + (years : Int) * SECONDS_PER_YEAR :=
    wrap64_eq_of_bounds (by rw [hspy]; omega) (by rw [hspy]; omega)
  have hw2 : wrap64 (now + (MAX_REGISTRATION_YEARS : Int) * SECONDS_PER_YEAR) =
      now + (MAX_REGISTRATION_YEARS : Int) * SECONDS_PER_YEAR :=
    wrap64_eq_of_bounds (by rw [hspy, hmax]; omega) (by rw [hspy, hmax]; omega)
  constructor
  · intro r hr
    unfold renew_symbol_sol at hr
    rw [if_neg (by simp [hkey]), if_neg (by simp [hpause])] at hr
    simp only [validate_symbol_not_expired, hactive, Bool.false_eq_true, if_false] at hr
    by_cases hle : tok.expires_at + (years : Int) * SECONDS_PER_YEAR ≤
        now + (MAX_REGISTRATION_YEARS : Int) * SECONDS_PER_YEAR
    · rw [validate_expiration_eq_ok hy hw1 hw2 hle] at hr
      cases hbps : validate_platform_fee_bps platform_fee_bps with
      | error e => rw [hbps] at hr; cases hr
      | ok u =>
        rw [hbps] at hr
        cases hsp : get_sol_price_micro feed now with
        | err e =>
          simp only [calculate_fees_sol, hsp] at hr
          exact Outcome.noConfusion hr
        | trap =>
          simp only [calculate_fees_sol, hsp] at hr
          exact Outcome.noConfusion hr
        | ok sp =>
          cases hfl : usd_to_lamports (cfg.calculate_registration_price_usd now years) sp with
          | err e =>
            simp only [calculate_fees_sol, hsp, hfl] at hr
            exact Outcome.noConfusion hr
          | trap =>
            simp only [calculate_fees_sol, hsp, hfl] at hr
            exact Outcome.noConfusion hr
          | ok fl =>
            simp only [calculate_fees_sol, hsp, hfl] at hr
            cases hsl : validate_slippage fl max_sol_cost with
            | error e => rw [hsl] at hr; cases hr
            | ok u2 =>
              rw [hsl] at hr
              cases hr
              refine ⟨rfl, ?_, rfl, rfl, rfl, rfl, sp, rfl, hfl⟩
              show tok.expires_at < tok.expires_at + (years : Int) * SECONDS_PER_YEAR
              rw [hspy]
              omega
    · rw [validate_expiration_eq_err hy hw1 hw2 (by omega)] at hr
      cases hr
  · intro hgt
    unfold renew_symbol_sol
    rw [if_neg (by simp [hkey]), if_neg (by simp [hpause])]
    simp only [validate_symbol_not_expired, hactive, Bool.false_eq_true, if_false]
    rw [validate_expiration_eq_err hy hw1 hw2 (by rw [hmax]; exact hgt)]

/-- Witness for C2: a one-year renewal of an active record, and the
max-duration rejection of a nine-year renewal of a record expiring two years
from now. -/
theorem claim_C2_renewal_extends_from_expiry_witness :
    ((∀ r, renew_symbol_sol exampleConfig
        ⟨"ABC", 5, 9, 0, 63115200⟩ exampleFeed 1 1000000000000 0 0 = .ok r →
      r.token.expires_at = (63115200 : Int) + (1 : Int) * SECONDS_PER_YEAR ∧
      (63115200 : Int) < r.token.expires_at ∧
      r.token.symbol = "ABC" ∧ r.token.mint = 5 ∧
      r.token.owner = 9 ∧ r.token.registered_at = 0 ∧
      (∃ sp, get_sol_price_micro exampleFeed 0 = .ok sp ∧
        usd_to_lamports (exampleConfig.calculate_registration_price_usd 0 1) sp =
          .ok r.fee_lamports))
    ∧ ((0 : Int) + (10 : Int) * SECONDS_PER_YEAR <
        (63115200 : Int) + (1 : Int) * SECONDS_PER_YEAR →
      renew_symbol_sol exampleConfig
        ⟨"ABC", 5, 9, 0, 63115200⟩ exampleFeed 1 1000000000000 0 0 =
          .err .ExceedsMaxYears))
    ∧ (renew_symbol_sol exampleConfig
        ⟨"ABC", 5, 9, 0, 63115200⟩ exampleFeed 9 1000000000000 0 0 =
          .err .ExceedsMaxYears) := by
  constructor
  · exact claim_C2_renewal_extends_from_expiry exampleConfig
      ⟨"ABC", 5, 9, 0, 63115200⟩ exampleFeed 1 1000000000000 0 0
      rfl rfl (by decide) (by decide) (by decide)
      (by norm_num) (by norm_num) (by norm_num) (by norm_num)
  · exact (claim_C2_renewal_extends_from_expiry exampleConfig
      ⟨"ABC", 5, 9, 0, 63115200⟩ exampleFeed 9 1000000000000 0 0
      rfl rfl (by decide) (by decide) (by decide)
      (by norm_num) (by norm_num) (by norm_num) (by norm_num)).2 (by norm_num [SECONDS_PER_YEAR])

/-! ## Ownership-claim lemmas -/

/-- Closed-form behaviour of `claim_ownership` once the account constraints
pass and the claimant is not already the owner. -/
theorem claim_ownership_characterization (cfg : Config) (tok : Token)
    (claimant : Nat) (mint : MintAccount) (md : MetadataInfo)
    (ata : Option ClaimantTokenAccount)
    (hmint : mint.key = tok.mint) (hpause : cfg.paused = false)
    (hpda : md.is_metadata_pda_for_mint = true) (hdes : md.deserializes = true)
    (howner : tok.owner ≠ claimant) :
    claim_ownership cfg tok claimant mint md ata =
      if mint.mint_authority = some claimant ∨ md.data.update_authority = claimant ∨
          (∃ acc, ata = some acc ∧ 0 < mint.supply ∧ mint.supply / 2 < acc.amount) then
        .ok ({ tok with owner := claimant },
          if mint.mint_authority = some claimant then "mint_authority"
          else if md.data.update_authority = claimant then "update_authority"
          else "majority_holder")
      else .err .NotTokenAuthority := by
  obtain ⟨mk, mauth, msup⟩ := mint
  simp only at hmint
  subst hmint
  cases mauth with
  | none =>
    cases ata with
    | none =>
      by_cases hua : md.data.update_authority = claimant <;>
        simp [claim_ownership, hpause, hpda, hdes, howner, hua]
    | some acc =>
      by_cases hua : md.data.update_authority = claimant <;>
        by_cases hmaj : 0 < msup ∧ msup / 2 < acc.amount <;>
          simp [claim_ownership, hpause, hpda, hdes, howner, hua]
  | some a =>
    cases ata with
    | none =>
      by_cases hma : a = claimant <;>
        by_cases hua : md.data.update_authority = claimant <;>
          simp [claim_ownership, hpause, hpda, hdes, howner, hma, hua]
    | some acc =>
      by_cases hma : a = claimant <;>
        by_cases hua : md.data.update_authority = claimant <;>
          by_cases hmaj : 0 < msup ∧ msup / 2 < acc.amount <;>
            simp [claim_ownership, hpause, hpda, hdes, howner, hma, hua]

/-- C4: `ClaimOwnership` succeeds iff the claimant is not already the owner
and is the mint authority, the metadata update authority, or holds strictly
more than 50% of the supply; on success only the owner field changes and the
satisfied path is recorded. -/
theorem claim_C4_claim_ownership_paths (cfg : Config) (tok : Token)
    (claimant : Nat) (mint : MintAccount) (md : MetadataInfo)
    (ata : Option ClaimantTokenAccount)
    (hmint : mint.key = tok.mint) (hpause : cfg.paused = false)
    (hpda : md.is_metadata_pda_for_mint = true) (hdes : md.deserializes = true) :
    ((∃ res, claim_ownership cfg tok claimant mint md ata = .ok res) ↔
      tok.owner ≠ claimant ∧
        (mint.mint_authority = some claimant ∨ md.data.update_authority = claimant ∨
          (∃ acc, ata = some acc ∧ 0 < mint.supply ∧ mint.supply / 2 < acc.amount)))
    ∧ (∀ newTok ct, claim_ownership cfg tok claimant mint md ata = .ok (newTok, ct) →
        newTok = { tok with owner := claimant } ∧
        (ct = "mint_authority" → mint.mint_authority = some claimant) ∧
        (ct = "update_authority" → md.data.update_authority = claimant) ∧
        (ct = "majority_holder" →
          ∃ acc, ata = some acc ∧ 0 < mint.supply ∧ mint.supply / 2 < acc.amount)) := by
  by_cases howner : tok.owner = claimant
  · have hres : claim_ownership cfg tok claimant mint md ata = .err .AlreadyOwner := by
      unfold claim_ownership
      rw [if_neg (by simp [hmint]), if_neg (by simp [hpause]), if_pos howner]
    constructor
    · rw [hres]
      simp [howner]
    · intro newTok ct h
      rw [hres] at h
      exact Outcome.noConfusion h
  · rw [claim_ownership_characterization cfg tok claimant mint md ata
      hmint hpause hpda hdes howner]
    by_cases hcond : mint.mint_authority = some claimant ∨
        md.data.update_authority = claimant ∨
        (∃ acc, ata = some acc ∧ 0 < mint.supply ∧ mint.supply / 2 < acc.amount)
    · rw [if_pos hcond]
      constructor
      · simp [howner, hcond]
      · intro newTok ct h
        simp only [Outcome.ok.injEq, Prod.mk.injEq] at h
        obtain ⟨h1, h2⟩ := h
        subst h1
        subst h2
        refine ⟨rfl, ?_, ?_, ?_⟩ <;>
          by_cases hma : mint.mint_authority = some claimant <;>
            by_cases hua : md.data.update_authority = claimant <;>
              simp [hma, hua] <;>
              rcases hcond with h | h | h <;> simp_all
    · rw [if_neg hcond]
      constructor
      · constructor
        · rintro ⟨res, h⟩
          exact Outcome.noConfusion h
        · rintro ⟨_, hd⟩
          exact absurd hd hcond
      · intro newTok ct h
        exact Outcome.noConfusion h

/-- Witness for C4: supply 1000, update authority 99 (not the claimant), no
mint authority.  A claimant holding 501 units succeeds via the
majority-holder path; one holding exactly 500 is rejected. -/
theorem claim_C4_claim_ownership_paths_witness :
    (∃ res, claim_ownership exampleConfig ⟨"ABC", 5, 2, 0, 100⟩ 3
      ⟨5, none, 1000⟩ ⟨10, true, true, ⟨"ABC", false, 99⟩⟩ (some ⟨501⟩) = .ok res)
    ∧ claim_ownership exampleConfig ⟨"ABC", 5, 2, 0, 100⟩ 3
      ⟨5, none, 1000⟩ ⟨10, true, true, ⟨"ABC", false, 99⟩⟩ (some ⟨500⟩) =
        .err .NotTokenAuthority := by
  constructor
  · exact (claim_C4_claim_ownership_paths exampleConfig ⟨"ABC", 5, 2, 0, 100⟩ 3
      ⟨5, none, 1000⟩ ⟨10, true, true, ⟨"ABC", false, 99⟩⟩ (some ⟨501⟩)
      rfl rfl rfl rfl).1.mpr
      ⟨by decide, Or.inr (Or.inr ⟨⟨501⟩, rfl, by decide, by decide⟩)⟩
  · decide

/-- C5: `verify_or_close` (DriftClose) fails with `NoDriftDetected` exactly
when the live metadata symbol equals the stored symbol — for every `now` and
every record state, i.e. regardless of the record's temporal state — and when
they differ it destroys the record, returning its rent to the caller. -/
theorem claim_C5_drift_close_iff (cfg : Config) (tok : Token) (mint : MintInfo)
    (md : MetadataInfo) (config_balance min_rent rent : Nat) (now : Int)
    (s : String)
    (hmint : mint.key = tok.mint)
    (hex : extract_metadata_symbol md mint = .ok s) :
    (verify_or_close cfg tok mint md config_balance min_rent rent now =
        .err .NoDriftDetected ↔ s = tok.symbol)
    ∧ (s ≠ tok.symbol →
        ∃ res, verify_or_close cfg tok mint md config_balance min_rent rent now =
          .ok res ∧ res.rent_returned = rent) := by
  unfold verify_or_close
  rw [if_neg (by simp [hmint])]
  simp only [hex]
  by_cases hs : s = tok.symbol
  · rw [if_pos (by simp [hs])]
    exact ⟨by simp [hs], fun h => absurd hs h⟩
  · rw [if_neg (by simp [hs])]
    constructor
    · constructor
      · intro h
        split at h <;> exact Outcome.noConfusion h
      · intro h
        exact absurd h hs
    · intro _
      split
      · exact ⟨_, rfl, rfl⟩
      · exact ⟨_, rfl, rfl⟩

/-- Witness for C5: a mint whose live metadata symbol is XYZ while the record
stores ABC is closed even though the record is long-expired (Cancelable), and
the same record with matching metadata is rejected with `NoDriftDetected`
despite being Cancelable. -/
theorem claim_C5_drift_close_iff_witness :
    ((verify_or_close exampleConfig ⟨"ABC", 5, 2, -100000000, -99000000⟩
        ⟨5, false, none⟩ ⟨10, true, true, ⟨"XYZ", true, 9⟩⟩ 0 0 1000 0 =
          .err .NoDriftDetected ↔ "XYZ" = "ABC")
      ∧ ("XYZ" ≠ "ABC" →
          ∃ res, verify_or_close exampleConfig ⟨"ABC", 5, 2, -100000000, -99000000⟩
            ⟨5, false, none⟩ ⟨10, true, true, ⟨"XYZ", true, 9⟩⟩ 0 0 1000 0 =
              .ok res ∧ res.rent_returned = 1000))
    ∧ ((verify_or_close exampleConfig ⟨"ABC", 5, 2, -100000000, -99000000⟩
        ⟨5, false, none⟩ ⟨10, true, true, ⟨"ABC", true, 9⟩⟩ 0 0 1000 0 =
          .err .NoDriftDetected ↔ "ABC" = "ABC")
      ∧ ("ABC" ≠ "ABC" →
          ∃ res, verify_or_close exampleConfig ⟨"ABC", 5, 2, -100000000, -99000000⟩
            ⟨5, false, none⟩ ⟨10, true, true, ⟨"ABC", true, 9⟩⟩ 0 0 1000 0 =
              .ok res ∧ res.rent_returned = 1000)) :=
  ⟨claim_C5_drift_close_iff exampleConfig ⟨"ABC", 5, 2, -100000000, -99000000⟩
      ⟨5, false, none⟩ ⟨10, true, true, ⟨"XYZ", true, 9⟩⟩ 0 0 1000 0 "XYZ" rfl rfl,
    claim_C5_drift_close_iff exampleConfig ⟨"ABC", 5, 2, -100000000, -99000000⟩
      ⟨5, false, none⟩ ⟨10, true, true, ⟨"ABC", true, 9⟩⟩ 0 0 1000 0 "ABC" rfl rfl⟩

/-! ## Registration inversion lemmas -/

theorem validate_symbol_format_ok {symbol s : String}
    (h : validate_symbol_format symbol = .ok s) : s = symbol := by
  unfold validate_symbol_format at h
  split at h
  · exact Except.noConfusion h
  · cases h
    rfl

theorem calculate_fees_sol_ok_inv {cfg : Config} {now : Int} {years : Nat}
    {feed : PythFeed} {fees : SolFeeBreakdown}
    (h : calculate_fees_sol cfg now years feed = .ok fees) :
    fees.keeper_reward_lamports = cfg.keeper_reward_lamports ∧
      ∃ sp, get_sol_price_micro feed now = .ok sp ∧
        usd_to_lamports (cfg.calculate_registration_price_usd now years) sp =
          .ok fees.fee_lamports := by
  unfold calculate_fees_sol at h
  cases hsp : get_sol_price_micro feed now with
  | err e => rw [hsp] at h; exact Outcome.noConfusion h
  | trap => rw [hsp] at h; exact Outcome.noConfusion h
  | ok sp =>
    rw [hsp] at h
    dsimp only at h
    cases hfl : usd_to_lamports (cfg.calculate_registration_price_usd now years) sp with
    | err e => rw [hfl] at h; exact Outcome.noConfusion h
    | trap => rw [hfl] at h; exact Outcome.noConfusion h
    | ok fl =>
      rw [hfl] at h
      cases h
      exact ⟨rfl, sp, rfl, hfl⟩

/-- Inversion of a successful SOL registration: the metadata check passed for
the registered symbol, the keeper pool was funded with the config's
`keeper_reward_lamports` field, and the created record binds symbol, mint,
payer and `registered_at = now`. -/
theorem register_symbol_sol_ok_inv {rl : String → Bool} {cfg : Config}
    {payer : Nat} {tm : MintInfo} {md : MetadataInfo} {feed : PythFeed}
    {symbol : String} {years mc bps : Nat} {now : Int} {r : RegisterResult}
    (h : register_symbol_sol rl cfg payer tm md feed symbol years mc bps now = .ok r) :
    validate_mint_metadata md tm symbol = .ok () ∧
    r.keeper_funded = cfg.keeper_reward_lamports ∧
    r.token.symbol = symbol ∧ r.token.mint = tm.key ∧ r.token.owner = payer ∧
    r.token.registered_at = now := by
  unfold register_symbol_sol at h
  by_cases hkey : feed.key = cfg.sol_usd_pyth_feed
  case neg =>
    rw [if_pos (by simp [hkey])] at h
    exact Outcome.noConfusion h
  rw [if_neg (by simp [hkey])] at h
  by_cases hp : cfg.paused = true
  · rw [if_pos hp] at h
    exact Outcome.noConfusion h
  · rw [if_neg hp] at h
    cases hfmt : validate_symbol_format symbol with
    | error e => rw [hfmt] at h; exact Outcome.noConfusion h
    | ok s =>
      have hs := validate_symbol_format_ok hfmt
      subst hs
      rw [hfmt] at h
      dsimp only at h
      cases hexp : validate_and_calculate_expiration now years now with
      | error e => rw [hexp] at h; exact Outcome.noConfusion h
      | ok expv =>
        rw [hexp] at h
        dsimp only at h
        cases hacc : validate_registration_access rl cfg s tm.key payer with
        | error e => rw [hacc] at h; exact Outcome.noConfusion h
        | ok u1 =>
          rw [hacc] at h
          dsimp only at h
          cases hmd : validate_mint_metadata md tm s with
          | error e => rw [hmd] at h; exact Outcome.noConfusion h
          | ok u2 =>
            rw [hmd] at h
            dsimp only at h
            cases hbpsv : validate_platform_fee_bps bps with
            | error e => rw [hbpsv] at h; exact Outcome.noConfusion h
            | ok u3 =>
              rw [hbpsv] at h
              dsimp only at h
              cases hfee : calculate_fees_sol cfg now years feed with
              | err e => rw [hfee] at h; exact Outcome.noConfusion h
              | trap => rw [hfee] at h; exact Outcome.noConfusion h
              | ok fees =>
                rw [hfee] at h
                dsimp only at h
                cases hsl : validate_slippage
                    ((fees.fee_lamports + fees.keeper_reward_lamports) % U64_MOD) mc with
                | error e => rw [hsl] at h; exact Outcome.noConfusion h
                | ok u4 =>
                  rw [hsl] at h
                  dsimp only at h
                  cases h
                  cases u2
                  exact ⟨rfl, (calculate_fees_sol_ok_inv hfee).1, rfl, rfl, rfl, rfl⟩

/-! ## Metadata-check lemmas -/

/-- The metadata validation never reads the `is_mutable` flag: the result for
any flag equals the result with the flag forced to `true`. -/
theorem validate_mint_metadata_ignores_mutability (k : Nat) (pda des : Bool)
    (ms : String) (m : Bool) (ua : Nat) (mint : MintInfo) (expected : String) :
    validate_mint_metadata ⟨k, pda, des, ⟨ms, m, ua⟩⟩ mint expected =
      validate_mint_metadata ⟨k, pda, des, ⟨ms, true, ua⟩⟩ mint expected := by
  cases pda <;> cases des <;>
    simp [validate_mint_metadata, extract_metadata_symbol, parse_metadata]

/-- `validate_mint_metadata` succeeds exactly when the extracted symbol is the
expected one — nothing else about the metadata is checked. -/
theorem validate_mint_metadata_ok_iff (mi : MetadataInfo) (mint : MintInfo)
    (expected : String) :
    validate_mint_metadata mi mint expected = .ok () ↔
      extract_metadata_symbol mi mint = .ok expected := by
  unfold validate_mint_metadata
  cases hex : extract_metadata_symbol mi mint with
  | error e => simp
  | ok s =>
    by_cases hs : s = expected <;> simp [hs]

theorem validate_symbol_format_eq_ok {symbol : String}
    (hlen : symbol.length ≠ 0 ∧ symbol.length ≤ MAX_SYMBOL_LENGTH) :
    validate_symbol_format symbol = .ok symbol := by
  unfold validate_symbol_format
  rw [if_neg (not_not_intro hlen)]

/-- C7 (amended): the registration metadata check is symbol-only.  (i) The
register handler's result never depends on the metadata `is_mutable` flag;
(ii) on success the extracted live metadata symbol equals the registered
symbol; (iii) when the extracted symbol differs, registration fails with
`MetadataSymbolMismatch` (the `MetadataMustBeImmutable` error is never
produced). -/
theorem claim_C7_metadata_symbol_only (rl : String → Bool) (cfg : Config)
    (payer : Nat) (tm : MintInfo) (md : MetadataInfo) (feed : PythFeed)
    (symbol : String) (years mc bps : Nat) (now : Int) (s : String) :
    (∀ (k : Nat) (pda des : Bool) (ms : String) (m1 m2 : Bool) (ua : Nat),
      register_symbol_sol rl cfg payer tm ⟨k, pda, des, ⟨ms, m1, ua⟩⟩ feed
          symbol years mc bps now =
        register_symbol_sol rl cfg payer tm ⟨k, pda, des, ⟨ms, m2, ua⟩⟩ feed
          symbol years mc bps now)
    ∧ (∀ r, register_symbol_sol rl cfg payer tm md feed symbol years mc bps now =
          .ok r → extract_metadata_symbol md tm = .ok symbol)
    ∧ (feed.key = cfg.sol_usd_pyth_feed → cfg.paused = false →
        symbol.length ≠ 0 ∧ symbol.length ≤ MAX_SYMBOL_LENGTH →
        1 ≤ years → years ≤ 10 → -(2 ^ 61) ≤ now → now ≤ 2 ^ 61 →
        validate_registration_access rl cfg symbol tm.key payer = .ok () →
        extract_metadata_symbol md tm = .ok s → s ≠ symbol →
        register_symbol_sol rl cfg payer tm md feed symbol years mc bps now =
          .err .MetadataSymbolMismatch) := by
  refine ⟨?_, ?_, ?_⟩
  · intro k pda des ms m1 m2 ua
    simp only [register_symbol_sol, validate_mint_metadata_ignores_mutability]
  · intro r hr
    exact (validate_mint_metadata_ok_iff md tm symbol).mp
      (register_symbol_sol_ok_inv hr).1
  · intro hkey hp hlen hy hy10 hn1 hn2 hacc hex hs
    have hspy : SECONDS_PER_YEAR = (31557600 : Int) := rfl
    unfold register_symbol_sol
    rw [if_neg (by simp [hkey]), if_neg (by simp [hp]),
      validate_symbol_format_eq_ok hlen]
    dsimp only
    have hw1 : wrap64 (now + (years : Int) * SECONDS_PER_YEAR) =
        now + (years : Int) * SECONDS_PER_YEAR :=
      wrap64_eq_of_bounds (by rw [hspy]; omega) (by rw [hspy]; omega)
    have hw2 : wrap64 (now + (MAX_REGISTRATION_YEARS : Int) * SECONDS_PER_YEAR) =
        now + (MAX_REGISTRATION_YEARS : Int) * SECONDS_PER_YEAR :=
      wrap64_eq_of_bounds (by rw [hspy]; norm_num [MAX_REGISTRATION_YEARS]; omega)
        (by rw [hspy]; norm_num [MAX_REGISTRATION_YEARS]; omega)
    rw [validate_expiration_eq_ok hy hw1 hw2
      (by simp only [hspy, MAX_REGISTRATION_YEARS]; omega)]
    dsimp only
    rw [hacc]
    dsimp only
    have hmm : validate_mint_metadata md tm symbol = .error .MetadataSymbolMismatch := by
      unfold validate_mint_metadata
      rw [hex]
      dsimp only
      rw [if_pos hs]
    rw [hmm]

/-- Counterexample for C7 as stated: a SOL registration whose Metaplex
metadata has `is_mutable = true` (and matching symbol) succeeds — the code
never rejects mutable metadata, so the immutability half of the claim is
false. -/
theorem claim_C7_counterexample :
    (⟨10, true, true, ⟨"ABC", true, 9⟩⟩ : MetadataInfo).data.is_mutable = true
    ∧ register_symbol_sol (fun _ => false) exampleConfig 3 ⟨5, false, none⟩
        ⟨10, true, true, ⟨"ABC", true, 9⟩⟩ exampleFeed "ABC" 1 1000000000000 0 0 =
      .ok ⟨⟨"ABC", 5, 3, 0, 31557600⟩, 50000000, 50000000, 0⟩ := by
  constructor
  · rfl
  · decide

/-- Witness for C7 (amended), part (iii): live metadata symbol XYZ differs
from the registered symbol ABC, so registration fails with
`MetadataSymbolMismatch`. -/
theorem claim_C7_metadata_symbol_only_witness :
    register_symbol_sol (fun _ => false) exampleConfig 3 ⟨5, false, none⟩
      ⟨10, true, true, ⟨"XYZ", false, 9⟩⟩ exampleFeed "ABC" 1 1000000000000 0 0 =
        .err .MetadataSymbolMismatch :=
  (claim_C7_metadata_symbol_only (fun _ => false) exampleConfig 3 ⟨5, false, none⟩
      ⟨10, true, true, ⟨"XYZ", false, 9⟩⟩ exampleFeed "ABC" 1 1000000000000 0 0
      "XYZ").2.2 rfl rfl (by decide) (by decide) (by decide)
    (by norm_num) (by norm_num) rfl rfl (by decide)

/-- C8 (amended): while `paused` is set, register, renew, claim, update-mint,
transfer-ownership, claim-ownership and cancel are all rejected with the
`Paused` error before any state change; DriftClose (`verify_or_close`) is the
exception — it performs no paused check (see the counterexample). -/
theorem claim_C8_paused_blocks_operations (cfg : Config) (hp : cfg.paused = true) :
    (∀ (rl : String → Bool) (payer : Nat) (tm : MintInfo) (md : MetadataInfo)
        (feed : PythFeed) (symbol : String) (years mc bps : Nat) (now : Int),
      feed.key = cfg.sol_usd_pyth_feed →
      register_symbol_sol rl cfg payer tm md feed symbol years mc bps now =
        .err .Paused)
    ∧ (∀ (tok : Token) (feed : PythFeed) (years mc bps : Nat) (now : Int),
        feed.key = cfg.sol_usd_pyth_feed →
        renew_symbol_sol cfg tok feed years mc bps now = .err .Paused)
    ∧ (∀ (tok : Token) (payer : Nat) (nm : MintInfo) (md : MetadataInfo)
          (feed : PythFeed) (years mc bps : Nat) (now : Int),
        feed.key = cfg.sol_usd_pyth_feed →
        claim_expired_symbol_sol cfg tok payer nm md feed years mc bps now =
          .err .Paused)
    ∧ (∀ (tok : Token) (signer : Nat) (nm : MintInfo) (md : MetadataInfo)
          (feed : PythFeed) (mc bps : Nat) (now : Int),
        signer = tok.owner → feed.key = cfg.sol_usd_pyth_feed →
        update_mint_sol cfg tok signer nm md feed mc bps now = .err .Paused)
    ∧ (∀ (tok : Token) (signer nw : Nat), signer = tok.owner →
        transfer_ownership cfg tok signer nw = .err .Paused)
    ∧ (∀ (tok : Token) (claimant : Nat) (mint : MintAccount) (md : MetadataInfo)
          (ata : Option ClaimantTokenAccount), mint.key = tok.mint →
        claim_ownership cfg tok claimant mint md ata = .err .Paused)
    ∧ (∀ (tok : Token) (cb mr rent : Nat) (now : Int),
        cancel_symbol cfg tok cb mr rent now = .err .Paused) := by
  refine ⟨?_, ?_, ?_, ?_, ?_, ?_, ?_⟩
  · intro rl payer tm md feed symbol years mc bps now hkey
    unfold register_symbol_sol
    rw [if_neg (by simp [hkey]), if_pos hp]
  · intro tok feed years mc bps now hkey
    unfold renew_symbol_sol
    rw [if_neg (by simp [hkey]), if_pos hp]
  · intro tok payer nm md feed years mc bps now hkey
    unfold claim_expired_symbol_sol
    rw [if_neg (by simp [hkey]), if_pos hp]
  · intro tok signer nm md feed mc bps now hsig hkey
    unfold update_mint_sol
    rw [if_neg (by simp [hsig]), if_neg (by simp [hkey]), if_pos hp]
  · intro tok signer nw hsig
    unfold transfer_ownership
    rw [if_neg (by simp [hsig]), if_pos hp]
  · intro tok claimant mint md ata hmint
    unfold claim_ownership
    rw [if_neg (by simp [hmint]), if_pos hp]
  · intro tok cb mr rent now
    unfold cancel_symbol
    rw [if_pos hp]

/-- Counterexample for C8 as stated: DriftClose (`verify_or_close`) succeeds
while the config's paused flag is set — the handler has no paused check, so
the claim's list of paused-gated operations is wrong about drift-close. -/
theorem claim_C8_paused_counterexample :
    ({ exampleConfig with paused := true } : Config).paused = true
    ∧ verify_or_close { exampleConfig with paused := true }
        ⟨"ABC", 5, 2, 0, 100⟩ ⟨5, false, none⟩ ⟨10, true, true, ⟨"XYZ", true, 9⟩⟩
        0 0 1000 0 = .ok ⟨1000, 0, 0⟩ :=
  ⟨rfl, by decide⟩

/-- Witness for C8 (amended): at a paused config, renew, transfer and cancel
all fail with `Paused`. -/
theorem claim_C8_paused_blocks_operations_witness :
    renew_symbol_sol { exampleConfig with paused := true }
      ⟨"ABC", 5, 2, 0, 100⟩ exampleFeed 1 0 0 0 = .err .Paused
    ∧ transfer_ownership { exampleConfig with paused := true }
      ⟨"ABC", 5, 2, 0, 100⟩ 2 4 = .err .Paused
    ∧ cancel_symbol { exampleConfig with paused := true }
      ⟨"ABC", 5, 2, 0, 100⟩ 0 0 1000 0 = .err .Paused :=
  ⟨(claim_C8_paused_blocks_operations { exampleConfig with paused := true } rfl).2.1
      ⟨"ABC", 5, 2, 0, 100⟩ exampleFeed 1 0 0 0 rfl,
    (claim_C8_paused_blocks_operations { exampleConfig with paused := true } rfl).2.2.2.2.1
      ⟨"ABC", 5, 2, 0, 100⟩ 2 4 rfl,
    (claim_C8_paused_blocks_operations { exampleConfig with paused := true } rfl).2.2.2.2.2.2
      ⟨"ABC", 5, 2, 0, 100⟩ 0 0 1000 0⟩

/-- C6 (amended): registration access control knows only two symbol classes
(reserved-TradFi and not-listed; there is no Verified class and no authority
or whitelist-reference input).  Phase 1: the payer must be the admin for
every symbol.  Phase 2: reserved-TradFi symbols require the admin, every
other symbol is open to any actor.  Phase 3 and above (and any phase other
than 1 and 2): no restrictions.  `rl` is the reserved-TradFi membership
predicate (its ticker tables are repository data outside `src/`). -/
theorem claim_C6_phase_gating (rl : String → Bool) (cfg : Config)
    (symbol : String) (mint payer : Nat) :
    (cfg.phase = 1 →
      (validate_registration_access rl cfg symbol mint payer = .ok () ↔
        payer = cfg.admin))
    ∧ (cfg.phase = 2 → rl symbol = true →
      (validate_registration_access rl cfg symbol mint payer = .ok () ↔
        payer = cfg.admin))
    ∧ (cfg.phase = 2 → rl symbol = false →
      validate_registration_access rl cfg symbol mint payer = .ok ())
    ∧ (3 ≤ cfg.phase →
      validate_registration_access rl cfg symbol mint payer = .ok ()) := by
  refine ⟨?_, ?_, ?_, ?_⟩
  · intro hph
    by_cases hpa : payer = cfg.admin <;>
      simp [validate_registration_access, get_symbol_status, hph, hpa]
  · intro hph hrl
    by_cases hpa : payer = cfg.admin <;>
      simp [validate_registration_access, get_symbol_status, hph, hrl, hpa]
  · intro hph hrl
    simp [validate_registration_access, get_symbol_status, hph, hrl]
  · intro hph
    have h1 : cfg.phase ≠ 1 := by omega
    have h2 : cfg.phase ≠ 2 := by omega
    simp [validate_registration_access, get_symbol_status, h1, h2]

/-- Counterexample for C6 as stated: the claim's Verified rules do not exist
in the code.  In phase 1 a non-admin payer (42, admin is 1) is rejected with
`AdminOnlyRegistration` for every symbol — no proof of identity control can
help, since the access check consults no authority data; in phase 2 the very
same non-admin payer registers the same non-reserved symbol with no authority
check at all. -/
theorem claim_C6_counterexample :
    validate_registration_access (fun _ => false) { exampleConfig with phase := 1 }
      "BONK" 5 42 = .error .AdminOnlyRegistration
    ∧ validate_registration_access (fun _ => false) exampleConfig "BONK" 5 42 =
        .ok () :=
  ⟨rfl, rfl⟩

/-- Witness for C6 (amended): the admin passes in phase 1; the admin passes
for a reserved ticker in phase 2; anyone passes for a reserved ticker in
phase 3. -/
theorem claim_C6_phase_gating_witness :
    validate_registration_access (fun _ => false) { exampleConfig with phase := 1 }
      "ABC" 5 1 = .ok ()
    ∧ validate_registration_access (fun s => s == "AAPL") exampleConfig
      "AAPL" 5 1 = .ok ()
    ∧ validate_registration_access (fun s => s == "AAPL")
      { exampleConfig with phase := 3 } "AAPL" 5 42 = .ok () :=
  ⟨(claim_C6_phase_gating (fun _ => false) { exampleConfig with phase := 1 }
      "ABC" 5 1).1 rfl |>.mpr rfl,
    ((claim_C6_phase_gating (fun s => s == "AAPL") exampleConfig
      "AAPL" 5 1).2.1 rfl (by decide)).mpr rfl,
    (claim_C6_phase_gating (fun s => s == "AAPL")
      { exampleConfig with phase := 3 } "AAPL" 5 42).2.2.2 (by decide)⟩

/-- C9: the conversion layer does NOT reject zero denominators.  A Pyth feed
that passes every check in `get_sol_price_micro` (positive raw price 5,
exponent `-8`, fresh) yields a derived micro-price of 0, and
`usd_to_lamports` / `usd_micro_to_tns_with_oracle` then hit a Rust division
by zero — a runtime panic (`trap`), not a returned error. -/
theorem claim_C9_zero_denominator_trap :
    get_sol_price_micro ⟨7, true, true, -8, 5, 0⟩ 0 = .ok 0
    ∧ usd_to_lamports 10000000 0 = .trap
    ∧ usd_micro_to_tns_with_oracle 10000000 0 = .trap :=
  ⟨by decide, rfl, rfl⟩

/-- C10: cancel and drift-close pay the compile-time constant
`KEEPER_REWARD_LAMPORTS` (50,000,000), not the config's
`keeper_reward_lamports` field (the result is invariant under changing that
field); the reward is paid only when the config balance strictly exceeds its
rent-exempt minimum plus the constant; when it does not, no reward is paid
and the operation still succeeds with its other effects unchanged; SOL
registrations fund the pool with the config field. -/
theorem claim_C10_keeper_reward_fixed (cfg : Config) (tok : Token)
    (mint : MintInfo) (md : MetadataInfo)
    (config_balance min_rent rent x : Nat) (now : Int) :
    (∀ res, cancel_symbol cfg tok config_balance min_rent rent now = .ok res →
      res.keeper_reward_paid =
        (if min_rent + KEEPER_REWARD_LAMPORTS < config_balance then
          KEEPER_REWARD_LAMPORTS else 0) ∧
      res.config_balance_after = config_balance - res.keeper_reward_paid ∧
      res.rent_returned = rent)
    ∧ cancel_symbol { cfg with keeper_reward_lamports := x } tok config_balance
        min_rent rent now =
      cancel_symbol cfg tok config_balance min_rent rent now
    ∧ (∀ res, verify_or_close cfg tok mint md config_balance min_rent rent now =
          .ok res →
      res.keeper_reward_paid =
        (if min_rent + KEEPER_REWARD_LAMPORTS < config_balance then
          KEEPER_REWARD_LAMPORTS else 0) ∧
      res.config_balance_after = config_balance - res.keeper_reward_paid ∧
      res.rent_returned = rent)
    ∧ verify_or_close { cfg with keeper_reward_lamports := x } tok mint md
        config_balance min_rent rent now =
      verify_or_close cfg tok mint md config_balance min_rent rent now
    ∧ (cfg.paused = false → tok.is_cancelable now = true →
        config_balance ≤ min_rent + KEEPER_REWARD_LAMPORTS →
        cancel_symbol cfg tok config_balance min_rent rent now =
          .ok ⟨rent, 0, config_balance⟩)
    ∧ (∀ (rl : String → Bool) (payer : Nat) (tm : MintInfo) (md2 : MetadataInfo)
          (feed : PythFeed) (symbol : String) (years mc bps : Nat) (now2 : Int)
          (r : RegisterResult),
        register_symbol_sol rl cfg payer tm md2 feed symbol years mc bps now2 =
          .ok r →
        r.keeper_funded = cfg.keeper_reward_lamports) := by
  refine ⟨?_, rfl, ?_, rfl, ?_, ?_⟩
  · intro res h
    unfold cancel_symbol at h
    by_cases hp : cfg.paused = true
    · rw [if_pos hp] at h
      exact Outcome.noConfusion h
    · rw [if_neg hp] at h
      by_cases hc : tok.is_cancelable now = true
      · rw [if_neg (not_not_intro hc)] at h
        dsimp only at h
        by_cases hf : min_rent + KEEPER_REWARD_LAMPORTS < config_balance
        · rw [if_pos hf] at h
          cases h
          rw [if_pos hf]
          exact ⟨rfl, rfl, rfl⟩
        · rw [if_neg hf] at h
          cases h
          rw [if_neg hf]
          exact ⟨rfl, by simp, rfl⟩
      · rw [if_pos hc] at h
        exact Outcome.noConfusion h
  · intro res h
    unfold verify_or_close at h
    by_cases hmk : mint.key = tok.mint
    · rw [if_neg (by simp [hmk])] at h
      cases hex : extract_metadata_symbol md mint with
      | error e => rw [hex] at h; exact Outcome.noConfusion h
      | ok s =>
        rw [hex] at h
        dsimp only at h
        by_cases hd : s ≠ tok.symbol
        · rw [if_neg (not_not_intro hd)] at h
          by_cases hf : min_rent + KEEPER_REWARD_LAMPORTS < config_balance
          · rw [if_pos hf] at h
            cases h
            rw [if_pos hf]
            exact ⟨rfl, rfl, rfl⟩
          · rw [if_neg hf] at h
            cases h
            rw [if_neg hf]
            exact ⟨rfl, by simp, rfl⟩
        · rw [if_pos hd] at h
          exact Outcome.noConfusion h
    · rw [if_pos (by simp [hmk])] at h
      exact Outcome.noConfusion h
  · intro hp hc hle
    unfold cancel_symbol
    rw [if_neg (by simp [hp]), if_neg (not_not_intro hc)]
    dsimp only
    rw [if_neg (by omega)]
  · intro rl payer tm md2 feed symbol years mc bps now2 r h
    exact (register_symbol_sol_ok_inv h).2.1

/-- Witness for C10: a funded pool (balance 60,000,000 above a 1,000 rent
floor) pays exactly the 50,000,000-lamport constant on cancel; an underfunded
pool pays nothing and the cancel still succeeds. -/
theorem claim_C10_keeper_reward_fixed_witness :
    ((⟨1000, 50000000, 10000000⟩ : CloseResult).keeper_reward_paid =
      (if 1000 + KEEPER_REWARD_LAMPORTS < 60000000 then
        KEEPER_REWARD_LAMPORTS else 0) ∧
    (⟨1000, 50000000, 10000000⟩ : CloseResult).config_balance_after =
      60000000 - (⟨1000, 50000000, 10000000⟩ : CloseResult).keeper_reward_paid ∧
    (⟨1000, 50000000, 10000000⟩ : CloseResult).rent_returned = 1000)
    ∧ cancel_symbol exampleConfig ⟨"ABC", 5, 2, -100000000, -99000000⟩
        1000 1000 500 0 = .ok ⟨500, 0, 1000⟩ :=
  ⟨(claim_C10_keeper_reward_fixed exampleConfig ⟨"ABC", 5, 2, -100000000, -99000000⟩
      ⟨5, false, none⟩ ⟨10, true, true, ⟨"ABC", false, 9⟩⟩ 60000000 1000 1000 77 0).1
      ⟨1000, 50000000, 10000000⟩ (by decide),
    (claim_C10_keeper_reward_fixed exampleConfig ⟨"ABC", 5, 2, -100000000, -99000000⟩
      ⟨5, false, none⟩ ⟨10, true, true, ⟨"ABC", false, 9⟩⟩ 1000 1000 500 77 0).2.2.2.2.1
      rfl (by decide) (by decide)⟩

end Tns
